import Mathlib

/-!
Verification of the peer-to-peer synchronization core ("SyncHandler") of the
orange-bot-base repository, a shallow embedding of the TypeScript source.
Peers, messages and the message handler are translated from the source file
holding `class SyncHandler` / `class SyncHandlerClient` (the current version,
with modules and `expireConfigCache`), and from `ConfigStorage.expireCache`.
Machine integers are modelled as `Nat` / `Int` (ids and timestamps are small
positive values, no overflow is reachable in the modelled scenarios), the
JavaScript `Map` as an insertion-ordered association list, and I/O as an
explicit list of effects.
-/

namespace OrangeBot

/-- `PEER_RETRY_TIME` from the source. -/
def PEER_RETRY_TIME : Nat := 25000
/-- `P2P_HEARTBEAT_TIME` from the source (heartbeat interval). -/
def P2P_HEARTBEAT_TIME : Nat := 10000
/-- `P2P_DEAD_TIME` from the source (grace after last heartbeat). -/
def P2P_DEAD_TIME : Nat := 2000
/-- `P2P_GIVE_UP_TIME` from the source. -/
def P2P_GIVE_UP_TIME : Nat := 5000
/-- `P2P_CHECK_TIME` from the source (status check interval). -/
def P2P_CHECK_TIME : Nat := 5000
/-- Initial value of `currentMessageId` (`private currentMessageId = 1`). -/
def initialMessageId : Nat := 1

/-- `ConfigValueScope` from the ConfigStorage types: "user" | "guild" | "global". -/
inductive ConfigValueScope where
  | user
  | guild
  | global
deriving DecidableEq, Repr

/-- A module descriptor as advertised in `moduleInfo` messages (`ModuleData`).
Modelled from the spec: the `Module` class with its `data` view is absent from
the sources; §3 gives the descriptor as `name`, `available`, `handling`. -/
structure ModuleData where
  name : String
  available : Bool
  handling : Bool
deriving DecidableEq, Repr

/-- A local module in the module registry (`bot.modules`).
Modelled from the spec: the `Module` class is absent from the sources; §3 gives
a LocalModule as `name`, `available` and a mutable `handler` (instance name or
absent). -/
structure LocalModule where
  name : String
  available : Bool
  handler : Option String
deriving DecidableEq, Repr

/-- Modelled from the spec: `handling` of a local module "is the derived
predicate handler == self.name" (§3, LocalModule). -/
def LocalModule.handlingFor (m : LocalModule) (selfName : String) : Bool :=
  m.handler == some selfName

/-- The `Peer` class: one entry of the Peer Table. `name` is the object's own
`name` field, which can transiently differ from the map key under which the
peer is stored (see `renamePeer`). -/
structure Peer where
  name : String
  address : Option String
  lastHeartbeat : Option Nat
  lastMessageId : Nat
  modules : Option (List ModuleData)
  knownDead : Bool
  priority : Int
deriving DecidableEq, Repr

/-- `new Peer(name, address)`: `lastMessageId = 0`, `knownDead = false`,
`priority = -1`. -/
def Peer.mk0 (name : String) (address : Option String) : Peer :=
  { name := name, address := address, lastHeartbeat := none, lastMessageId := 0,
    modules := none, knownDead := false, priority := -1 }

/-- The `alive` getter: `!knownDead && !!lastHeartbeat &&
lastHeartbeat > Date.now() - P2P_HEARTBEAT_TIME - P2P_DEAD_TIME`; over the
integers `hb > now - a - b` is `now < hb + a + b`. -/
def Peer.alive (p : Peer) (now : Nat) : Bool :=
  !p.knownDead &&
    (match p.lastHeartbeat with
     | some hb => decide (now < hb + P2P_HEARTBEAT_TIME + P2P_DEAD_TIME)
     | none => false)

/-- The tagged union of message kinds (the `Message` type of the source,
`hello=0 … expireConfigCache=8`). -/
inductive Message where
  | hello (version : String) (env : String) (userId : String)
  | heartbeat (time : Nat)
  | instanceInfo (address : Option String) (priority : Int) (reply : Bool)
  | lostPeer (peer : String)
  | assignModule (peer : String) (module : String)
  | requestModule (module : String)
  | controlSwitch (controller : String)
  | moduleInfo (modules : List ModuleData)
  | expireConfigCache (configName : String) (scope : ConfigValueScope) (id : String)
deriving DecidableEq, Repr

/-- `FullMessage = Message & { source, id }`. -/
structure FullMessage where
  source : String
  id : Nat
  msg : Message
deriving DecidableEq, Repr

/-- Identity of a connection: the single outbound client socket, or one of the
inbound `wsServer` connections (numbered). -/
inductive ConnId where
  | client
  | ws (n : Nat)
deriving DecidableEq, Repr

/-- A frame written on a connection: either raw received bytes relayed
verbatim, or the JSON encoding of a freshly built full message. -/
inductive Frame where
  | raw (data : String)
  | enc (fm : FullMessage)
deriving DecidableEq, Repr

/-- Observable effects of the handlers: socket writes, handing an
`expireConfigCache` to the local config storage, rewriting the peer address
cache file, closing a connection. -/
inductive Event where
  | write (c : ConnId) (f : Frame)
  | expireCache (configName : String) (scope : ConfigValueScope) (id : String)
  | saveCache (peers : List (String × String))
  | close (c : ConnId)
deriving DecidableEq, Repr

/-- The currently open connections: the outbound client socket
(`readyState == OPEN`) and the inbound `wsServer.clients` with their open
flags. -/
structure Conns where
  clientOpen : Bool
  wsConns : List (Nat × Bool)
deriving DecidableEq, Repr

/-- The mutable state of a `SyncHandler` instance.  The `controller` field is
the single `Peer | undefined` reference, modelled by the referenced peer's
`name`; self-identity (`bot.instanceName`, `bot.version`, `bot.env`,
`bot.client.user?.id || ""`) and the known config storage names
(`bot.configApi.storages`) are carried along. -/
structure SyncState where
  instanceName : String
  version : String
  env : String
  userId : String
  peers : List (String × Peer)
  controller : Option String
  localModules : List LocalModule
  currentMessageId : Nat
  knownConfigs : List String
deriving DecidableEq, Repr

/-! ## The Peer Table as an insertion-ordered association list

A JavaScript `Map` iterates in insertion order; `set` of an existing key
updates in place, `set` of a new key appends, `delete` removes. -/

/-- `peers.get(k)`. -/
def lookupPeer (ps : List (String × Peer)) (k : String) : Option Peer :=
  (ps.find? (fun e => e.1 == k)).map Prod.snd

/-- `peers.set(k, v)`: update in place if the key exists, else append. -/
def setPeer (ps : List (String × Peer)) (k : String) (v : Peer) : List (String × Peer) :=
  if ps.any (fun e => e.1 == k) then ps.map (fun e => if e.1 == k then (k, v) else e)
  else ps ++ [(k, v)]

/-- `peers.delete(k)`. -/
def deletePeer (ps : List (String × Peer)) (k : String) : List (String × Peer) :=
  ps.filter (fun e => !(e.1 == k))

/-- Update the peer stored under key `k` in place (mutation of the object
obtained from `peers.get(k)`). -/
def updatePeer (ps : List (String × Peer)) (k : String) (f : Peer → Peer) :
    List (String × Peer) :=
  ps.map (fun e => if e.1 == k then (e.1, f e.2) else e)

/-- The peer array written to the Peer Address Cache file (`createPeer` /
`renamePeer` with `updateCache`): all peers with a non-empty address, recorded
under their `name` *field* (not their map key). -/
def cacheEntries (ps : List (String × Peer)) : List (String × String) :=
  ps.filterMap (fun e =>
    match e.2.address with
    | some a => if a == "" then none else some (e.2.name, a)
    | none => none)

/-! ## Outbound writes -/

/-- `sendMessageRaw(message, except)`: write the frame to the outbound client
socket (unless it is the excluded origin, and only if open), then to every
open inbound connection except the excluded one. -/
def sendMessageRawEvents (conns : Conns) (f : Frame) (except : Option ConnId) :
    List Event :=
  (if except ≠ some ConnId.client ∧ conns.clientOpen then [Event.write ConnId.client f]
   else []) ++
  conns.wsConns.filterMap (fun e =>
    if except = some (ConnId.ws e.1) then none
    else if e.2 then some (Event.write (ConnId.ws e.1) f) else none)

/-- `messageToData`: stamp the message with `source = instanceName` and
`id = currentMessageId++`. -/
def messageToData (st : SyncState) (m : Message) : SyncState × FullMessage :=
  ({ st with currentMessageId := st.currentMessageId + 1 },
   { source := st.instanceName, id := st.currentMessageId, msg := m })

/-- `sendMessage(message, except?)` = `sendMessageRaw(messageToData(message), except)`. -/
def sendMessageE (st : SyncState) (conns : Conns) (m : Message) (except : Option ConnId) :
    SyncState × List Event :=
  let r := messageToData st m
  (r.1, sendMessageRawEvents conns (Frame.enc r.2) except)

/-- `sendMessageTo(message, ws)`: stamp via `messageToData` and write to that
one socket (used for the server's hello reply). -/
def sendMessageToE (st : SyncState) (m : Message) (wsId : Nat) :
    SyncState × List Event :=
  let r := messageToData st m
  (r.1, [Event.write (ConnId.ws wsId) (Frame.enc r.2)])

/-! ## Module registry binding -/

/-- `bot.modules.get(name)`. -/
def findLocalModule (st : SyncState) (name : String) : Option LocalModule :=
  st.localModules.find? (fun m => m.name == name)

/-- Write the `handler` field of the local module of the given name. -/
def setHandler (st : SyncState) (mdlName : String) (h : Option String) : SyncState :=
  { st with localModules :=
      st.localModules.map (fun m => if m.name == mdlName then { m with handler := h } else m) }

/-- The `this.modules` list broadcast by `sendModules`: each local module's
descriptor with its availability and derived handling flag. -/
def localModulesData (st : SyncState) : List ModuleData :=
  st.localModules.map (fun m =>
    { name := m.name, available := m.available, handling := m.handlingFor st.instanceName })

/-- `sendModules()`: broadcast a `moduleInfo` with the current module list. -/
def sendModulesE (st : SyncState) (conns : Conns) : SyncState × List Event :=
  sendMessageE st conns (Message.moduleInfo (localModulesData st)) none

/-- `setModuleHandler(mdl, handler)`: write the handler field, then
`sendModules()`. -/
def setModuleHandler (st : SyncState) (conns : Conns) (mdlName : String)
    (h : Option String) : SyncState × List Event :=
  sendModulesE (setHandler st mdlName h) conns

/-! ## Self and controller views -/

/-- `this.myself.priority` (`myself` is the peer stored under our own name;
`-1` is unreachable junk for states with self present). -/
def myPriority (st : SyncState) : Int :=
  match lookupPeer st.peers st.instanceName with
  | some p => p.priority
  | none => -1

/-- `this.myself.address`. -/
def myAddress (st : SyncState) : Option String :=
  match lookupPeer st.peers st.instanceName with
  | some p => p.address
  | none => none

/-- The `inControl` getter: `controller?.name == bot.instanceName`. -/
def inControl (st : SyncState) : Bool :=
  st.controller == some st.instanceName

/-- `this.controller.priority`, read through the Peer Table (the code reads it
off the referenced object; `-1` is unreachable junk for a dangling name). -/
def controllerPriority (st : SyncState) (c : String) : Int :=
  match lookupPeer st.peers c with
  | some p => p.priority
  | none => -1

/-- `setController(peer)`. -/
def setControllerS (st : SyncState) (name : String) : SyncState :=
  { st with controller := some name }

/-- `assumeControl()`: set controller to self and broadcast `controlSwitch`. -/
def assumeControl (st : SyncState) (conns : Conns) : SyncState × List Event :=
  sendMessageE { st with controller := some st.instanceName } conns
    (Message.controlSwitch st.instanceName) none

/-- `checkController()`: if no alive peer has strictly lower priority than
self, `assumeControl()`. -/
def checkController (st : SyncState) (conns : Conns) (now : Nat) : SyncState × List Event :=
  if st.peers.all (fun e => !(e.2.alive now && decide (e.2.priority < myPriority st))) then
    assumeControl st conns
  else (st, [])

/-! ## Module assignment -/

/-- One iteration of `assignModules`: if the module exists and is not locally
available, point `handler` at the first alive peer advertising it as available
(sending `assignModule` to it) and then unconditionally reset `handler` to
absent (the source clears it after the loop in either case); if it is locally
available, take it (`handler = instanceName`). -/
def assignModule1 (st : SyncState) (conns : Conns) (now : Nat) (mdlName : String) :
    SyncState × List Event :=
  match findLocalModule st mdlName with
  | none => (st, [])
  | some mdl =>
    if !mdl.available then
      let r :=
        match st.peers.find? (fun e =>
          e.2.alive now &&
            (match e.2.modules with
             | some ms => ms.any (fun d => d.name == mdl.name && d.available)
             | none => false)) with
        | some e =>
          sendMessageE (setHandler st mdlName (some e.2.name)) conns
            (Message.assignModule e.2.name mdlName) none
        | none => (st, [])
      (setHandler r.1 mdlName none, r.2)
    else
      (setHandler st mdlName (some st.instanceName), [])

/-- The loop of `assignModules` over the module names. -/
def assignModulesGo (st : SyncState) (conns : Conns) (now : Nat) :
    List String → SyncState × List Event
  | [] => (st, [])
  | n :: rest =>
    let r1 := assignModule1 st conns now n
    let r2 := assignModulesGo r1.1 conns now rest
    (r2.1, r1.2 ++ r2.2)

/-- `assignModules(modules)`: assign each, then `sendModules()`. -/
def assignModules (st : SyncState) (conns : Conns) (now : Nat) (names : List String) :
    SyncState × List Event :=
  let r1 := assignModulesGo st conns now names
  let r2 := sendModulesE r1.1 conns
  (r2.1, r1.2 ++ r2.2)

/-- The classification loop of `checkModules`: a local module is pushed onto
`unhandledMdls` when we are not handling it and `mapOperations.some(this.peers,
(name, peer) => peer.alive && peer.modules && peer.modules.some(mdlData =>
mdlData.handling))` is false — note the inner predicate does not compare
`mdlData.name` with the module being classified. -/
def unhandledModules (st : SyncState) (now : Nat) : List String :=
  (st.localModules.filter (fun mdl =>
    !(mdl.handlingFor st.instanceName) &&
      !(st.peers.any (fun e =>
        e.2.alive now &&
          (match e.2.modules with
           | some ms => ms.any (fun d => d.handling)
           | none => false))))).map (fun m => m.name)

/-- `checkModules()` (controller reconciliation tick): classify then assign. -/
def checkModules (st : SyncState) (conns : Conns) (now : Nat) : SyncState × List Event :=
  assignModules st conns now (unhandledModules st now)

/-! ## Dead peers -/

/-- `handleDeadPeer(peer, dontTell)` for the peer stored under `key`. -/
def handleDeadPeer (st : SyncState) (conns : Conns) (now : Nat) (key : String)
    (dontTell : Bool) : SyncState × List Event :=
  match lookupPeer st.peers key with
  | none => (st, [])
  | some peer =>
    if peer.name == st.instanceName then
      ({ st with peers := updatePeer st.peers key (fun p => { p with knownDead := true }) }, [])
    else if peer.knownDead then (st, [])
    else
      let ps1 := updatePeer st.peers key (fun p => { p with knownDead := true, lastMessageId := 0 })
      let st1 := { st with peers := ps1 }
      let r2 := if dontTell then (st1, ([] : List Event))
                else sendMessageE st1 conns (Message.lostPeer peer.name) none
      if st.controller == some peer.name then
        let r3 := checkController r2.1 conns now
        (r3.1, r2.2 ++ r3.2)
      else if !(inControl r2.1) then r2
      else
        match peer.modules with
        | none => r2
        | some mods =>
          let handled := (mods.filter (fun d => d.handling)).map (fun d => d.name)
          if handled.isEmpty then r2
          else
            let r3 := assignModules r2.1 conns now handled
            (r3.1, r2.2 ++ r3.2)

/-! ## The branches of `onMessage` -/

/-- The `heartbeat` branch: refresh `lastHeartbeat`, clear `knownDead`. -/
def handleHeartbeat (st : SyncState) (src : String) (now : Nat) : SyncState × List Event :=
  ({ st with peers :=
      updatePeer st.peers src (fun p => { p with lastHeartbeat := some now, knownDead := false }) },
   [])

/-- The `instanceInfo` branch: refresh liveness, adopt the advertised priority,
run the election step, and (unless the message was a reply) reply with our own
`instanceInfo` and `sendModules()`. -/
def handleInstanceInfo (st : SyncState) (conns : Conns) (now : Nat) (src : String)
    (peer : Peer) (prio : Int) (reply : Bool) : SyncState × List Event :=
  let ps1 := updatePeer st.peers src (fun p =>
    { p with lastHeartbeat := some now, knownDead := false, priority := prio })
  let st1 := { st with peers := ps1 }
  let cond :=
    match st1.controller with
    | none => true
    | some c => prio < controllerPriority st1 c
  let rA :=
    if cond then
      let rB := if inControl st1 then
                  sendMessageE st1 conns (Message.controlSwitch peer.name) none
                else (st1, ([] : List Event))
      if myPriority rB.1 < prio then
        let rC := assumeControl rB.1 conns
        (rC.1, rB.2 ++ rC.2)
      else
        (setControllerS rB.1 peer.name, rB.2)
    else (st1, ([] : List Event))
  if reply then rA
  else
    let rD := sendMessageE rA.1 conns
      (Message.instanceInfo (myAddress rA.1) (myPriority rA.1) true) none
    let rE := sendModulesE rD.1 conns
    (rE.1, rA.2 ++ rD.2 ++ rE.2)

/-- The `lostPeer` branch. -/
def handleLostPeer (st : SyncState) (conns : Conns) (now : Nat) (deadName : String) :
    SyncState × List Event :=
  match lookupPeer st.peers deadName with
  | none => (st, [])
  | some _ => handleDeadPeer st conns now deadName true

/-- The `assignModule` branch. -/
def handleAssignModule (st : SyncState) (conns : Conns) (target : String)
    (mdlName : String) : SyncState × List Event :=
  if target == st.instanceName then
    match findLocalModule st mdlName with
    | none => (st, [])
    | some _ => setModuleHandler st conns mdlName (some st.instanceName)
  else
    match findLocalModule st mdlName with
    | none => (st, [])
    | some mdl =>
      if mdl.handlingFor st.instanceName then setModuleHandler st conns mdlName (some target)
      else (st, [])

/-- The `requestModule` branch (controller only). -/
def handleRequestModule (st : SyncState) (conns : Conns) (src : String)
    (mdlName : String) : SyncState × List Event :=
  if !(inControl st) then (st, [])
  else
    match findLocalModule st mdlName with
    | none => (st, [])
    | some mdl =>
      let r1 := if mdl.handlingFor st.instanceName then
                  setModuleHandler st conns mdlName none
                else (st, ([] : List Event))
      let r2 := sendMessageE r1.1 conns (Message.assignModule src mdl.name) none
      (r2.1, r1.2 ++ r2.2)

/-- The `controlSwitch` branch: unknown controller or one that self out-ranks
is ignored; otherwise `setController`. -/
def handleControlSwitch (st : SyncState) (c : String) : SyncState × List Event :=
  match lookupPeer st.peers c with
  | none => (st, [])
  | some ctrl =>
    if myPriority st < ctrl.priority then (st, [])
    else (setControllerS st ctrl.name, [])

/-- The descriptor loop of the `moduleInfo` branch.  The third component is
false when the loop ran the source's early `return` (a descriptor with
`handling = false` and a known local module), in which case the caller skips
the `peer.modules = message.modules` store. -/
def moduleInfoLoop (st : SyncState) (conns : Conns) (peerName : String) (peerPrio : Int)
    (src : String) : List ModuleData → SyncState × List Event × Bool
  | [] => (st, [], true)
  | d :: rest =>
    match findLocalModule st d.name with
    | none => moduleInfoLoop st conns peerName peerPrio src rest
    | some mdl =>
      if !d.handling then
        (if mdl.handler == some peerName then setHandler st d.name none else st, [], false)
      else if mdl.handlingFor st.instanceName then
        if myPriority st < peerPrio then
          let r1 := if inControl st then
                      let rA := setModuleHandler st conns d.name (some st.instanceName)
                      let rB := sendModulesE rA.1 conns
                      (rB.1, rA.2 ++ rB.2)
                    else (st, ([] : List Event))
          let r2 := sendMessageE r1.1 conns (Message.requestModule d.name) none
          let r3 := moduleInfoLoop r2.1 conns peerName peerPrio src rest
          (r3.1, r1.2 ++ r2.2 ++ r3.2.1, r3.2.2)
        else
          let r1 := setModuleHandler st conns d.name (some peerName)
          let r2 := moduleInfoLoop r1.1 conns peerName peerPrio src rest
          (r2.1, r1.2 ++ r2.2.1, r2.2.2)
      else
        let r := moduleInfoLoop (setHandler st d.name (some src)) conns peerName peerPrio src rest
        (r.1, r.2.1, r.2.2)

/-- The `moduleInfo` branch: run the loop, then (only if it completed without
the early return) store the advertised list as the peer's snapshot. -/
def handleModuleInfo (st : SyncState) (conns : Conns) (src : String) (peer : Peer)
    (mods : List ModuleData) : SyncState × List Event :=
  let r := moduleInfoLoop st conns peer.name peer.priority src mods
  if r.2.2 then
    ({ r.1 with peers := updatePeer r.1.peers src (fun p => { p with modules := some mods }) },
     r.2.1)
  else (r.1, r.2.1)

/-- The `expireConfigCache` branch: hand the triple to the local config
storage if one of that name exists. -/
def handleExpireConfigCache (st : SyncState) (name : String) (scope : ConfigValueScope)
    (id : String) : SyncState × List Event :=
  if st.knownConfigs.contains name then (st, [Event.expireCache name scope id])
  else (st, [])

/-- The component-specific dispatch of `onMessage` (the if/else chain after
the dedup and relay): a late `hello` matches no branch. -/
def handleKnownMessage (st : SyncState) (conns : Conns) (now : Nat) (fm : FullMessage) :
    SyncState × List Event :=
  match lookupPeer st.peers fm.source with
  | none => (st, [])
  | some peer =>
    match fm.msg with
    | Message.hello _ _ _ => (st, [])
    | Message.heartbeat _ => handleHeartbeat st fm.source now
    | Message.instanceInfo _ prio reply => handleInstanceInfo st conns now fm.source peer prio reply
    | Message.lostPeer q => handleLostPeer st conns now q
    | Message.assignModule p m => handleAssignModule st conns p m
    | Message.requestModule m => handleRequestModule st conns fm.source m
    | Message.controlSwitch c => handleControlSwitch st c
    | Message.moduleInfo mods => handleModuleInfo st conns fm.source peer mods
    | Message.expireConfigCache n s i => handleExpireConfigCache st n s i

/-! ## `onMessage`: unknown-source guard, dedup, relay, dispatch -/

/-- `createPeer(name, address, opts)`: insert a fresh peer and, when
`updateCache`, rewrite the Peer Address Cache from the updated table. -/
def createPeerEff (st : SyncState) (name : String) (address : Option String)
    (updateCache : Bool) : SyncState × List Event :=
  let st1 := { st with peers := setPeer st.peers name (Peer.mk0 name address) }
  (st1, if updateCache then [Event.saveCache (cacheEntries st1.peers)] else [])

/-- The known-peer path of `onMessage`: drop self-looped messages, drop
duplicates (`lastMessageId >= id`), otherwise record the id, relay the raw
bytes to every other open connection, and dispatch. -/
def onMessageCore (st : SyncState) (conns : Conns) (now : Nat) (fm : FullMessage)
    (raw : String) (origin : ConnId) : SyncState × List Event :=
  match lookupPeer st.peers fm.source with
  | none => (st, [])
  | some peer =>
    if fm.source == st.instanceName then (st, [])
    else if peer.lastMessageId ≥ fm.id then (st, [])
    else
      let ps1 := updatePeer st.peers fm.source (fun p => { p with lastMessageId := fm.id })
      let r := handleKnownMessage { st with peers := ps1 } conns now fm
      (r.1, sendMessageRawEvents conns (Frame.raw raw) (some origin) ++ r.2)

/-- `onMessage` with the `loop` re-entry flag encoded as fuel (`loop = true`
is fuel `0`): an unknown source is dropped unless the message is an
`instanceInfo`, which creates the peer (persisting the cache) and re-runs
`onMessage` with `loop = true`. -/
def onMessageFuel (conns : Conns) (now : Nat) (fm : FullMessage) (raw : String)
    (origin : ConnId) : Nat → SyncState → SyncState × List Event
  | 0, st =>
    match lookupPeer st.peers fm.source with
    | some _ => onMessageCore st conns now fm raw origin
    | none => (st, [])
  | Nat.succ n, st =>
    match lookupPeer st.peers fm.source with
    | some _ => onMessageCore st conns now fm raw origin
    | none =>
      match fm.msg with
      | Message.instanceInfo addr _ _ =>
        let r1 := createPeerEff st fm.source addr true
        let r2 := onMessageFuel conns now fm raw origin n r1.1
        (r2.1, r1.2 ++ r2.2)
      | _ => (st, [])

/-- `onMessage(message, rawMessage, source, loop)`. -/
def onMessage (st : SyncState) (conns : Conns) (now : Nat) (fm : FullMessage)
    (raw : String) (origin : ConnId) (loop : Bool) : SyncState × List Event :=
  onMessageFuel conns now fm raw origin (if loop then 0 else 1) st

/-! ## The inbound (server) connection handler -/

/-- The `wsServer` per-connection message handler: once `saidHello`, all
frames go to `onMessage`; a non-hello first frame closes the connection; a
hello first frame flips `saidHello` and is answered with our own hello built
by `sendMessageTo` (hence stamped by `messageToData`).  No identity checks
are performed on the inbound hello. -/
def serverOnMessage (st : SyncState) (conns : Conns) (now : Nat) (saidHello : Bool)
    (fm : FullMessage) (raw : String) (wsId : Nat) : SyncState × Bool × List Event :=
  if saidHello then
    let r := onMessage st conns now fm raw (ConnId.ws wsId) false
    (r.1, true, r.2)
  else
    match fm.msg with
    | Message.hello _ _ _ =>
      let r := sendMessageToE st (Message.hello st.version st.env st.userId) wsId
      (r.1, true, r.2)
    | _ => (st, false, [Event.close (ConnId.ws wsId)])

/-! ## The outbound (client) hello processing -/

/-- `renamePeer(peer, name, opts)`: delete the entry under the object's
current `name` field, re-insert the object under the new key (the `name`
field itself is not updated here), and when `updateCache` rewrite the Peer
Address Cache from the resulting table. -/
def renamePeerEff (st : SyncState) (peer : Peer) (newName : String)
    (updateCache : Bool) : SyncState × List Event :=
  let ps := setPeer (deletePeer st.peers peer.name) newName peer
  ({ st with peers := ps },
   if updateCache then [Event.saveCache (cacheEntries ps)] else [])

/-- `SyncHandlerClient.processHello`: gate on self-loop, version (checked
twice — the second check repeats `version` instead of checking `env`), and
`userId`; then rekey the peer if the advertised `source` differs from its
`name` (without any cache write).  Returns the updated state, the peer
object, the `gotHello` outcome and the emitted events. -/
def processHello (st : SyncState) (helloSrc : String) (version : String) (_env : String)
    (userId : String) (peer : Peer) : SyncState × Peer × Bool × List Event :=
  if helloSrc == st.instanceName then
    (st, peer, false, [Event.close ConnId.client])
  else if version != st.version then
    (st, peer, false, [Event.close ConnId.client])
  else if version != st.version then
    (st, peer, false, [Event.close ConnId.client])
  else if userId != st.userId then
    (st, peer, false, [Event.close ConnId.client])
  else
    if helloSrc != peer.name then
      let peer1 := { peer with name := helloSrc }
      let ps := setPeer (deletePeer st.peers peer.name) peer1.name peer1
      ({ st with peers := ps }, peer1, true, [])
    else (st, peer, true, [])

/-- The client's handling of an inbound hello frame (inside the `message`
listener): peers named `unknown-peer-…` are first renamed via `renamePeer`
with `updateCache`, then `processHello` runs the gates and the rekey. -/
def clientHandleHello (st : SyncState) (peer : Peer) (helloSrc : String)
    (version : String) (env : String) (userId : String) :
    SyncState × Peer × Bool × List Event :=
  if peer.name.startsWith "unknown-peer" then
    let r1 := renamePeerEff st peer helloSrc true
    let r2 := processHello r1.1 helloSrc version env userId peer
    (r2.1, r2.2.1, r2.2.2.1, r1.2 ++ r2.2.2.2)
  else
    processHello st helloSrc version env userId peer

/-- `SyncHandlerClient.sendHello`: the client's hello is built by hand with
`id: 0` and sent over the outbound socket (only if it is open). -/
def clientSendHello (st : SyncState) (clientOpen : Bool) : List Event :=
  if clientOpen then
    [Event.write ConnId.client
      (Frame.enc { source := st.instanceName, id := 0,
                   msg := Message.hello st.version st.env st.userId })]
  else []

/-! ## `ConfigStorage.expireCache` -/

/-- The cache buckets of one `ConfigStorage`: per-user and per-guild
`_Configurable`s (modelled by whether their cache is populated) and the
global one. -/
structure ConfigStorageState where
  users : List (String × Bool)
  guilds : List (String × Bool)
  globalCached : Bool
deriving DecidableEq, Repr

/-- `map.get(id)?.flushCache()` on a bucket map. -/
def flushBucket (l : List (String × Bool)) (id : String) : List (String × Bool) :=
  l.map (fun e => if e.1 == id then (e.1, false) else e)

/-- `ConfigStorage.expireCache(scope, id)` as written: `scope === "user"`
flushes the user bucket for `id`; `scope === "global"` flushes the **guilds**
bucket for `id`; the remaining case (scope `guild`) flushes the **global**
bucket. -/
def ConfigStorageState.expireCache (cs : ConfigStorageState) (scope : ConfigValueScope)
    (id : String) : ConfigStorageState :=
  if scope == ConfigValueScope.user then
    { cs with users := flushBucket cs.users id }
  else if scope == ConfigValueScope.global then
    { cs with guilds := flushBucket cs.guilds id }
  else
    { cs with globalCached := false }

/-- Whether a given connection is currently open. -/
def connOpen (conns : Conns) : ConnId → Bool
  | ConnId.client => conns.clientOpen
  | ConnId.ws n => conns.wsConns.any (fun e => e.1 == n && e.2)

/-! ## Lemmas about the Peer Table operations -/



theorem find?_keyed_cons_pos {β : Type} (e : String × β) (l : List (String × β)) (k : String)
    (h : (e.1 == k) = true) : List.find? (fun x => x.1 == k) (e :: l) = some e := by
  rw [List.find?_cons, h]

theorem find?_keyed_cons_neg {β : Type} (e : String × β) (l : List (String × β)) (k : String)
    (h : (e.1 == k) = false) :
    List.find? (fun x => x.1 == k) (e :: l) = List.find? (fun x => x.1 == k) l := by
  rw [List.find?_cons, h]

theorem find_replace_of_any (ps : List (String × Peer)) (k : String) (v : Peer)
    (h : ps.any (fun e => e.1 == k) = true) :
    (ps.map (fun e => if e.1 == k then (k, v) else e)).find? (fun e => e.1 == k) = some (k, v) := by
  induction ps with
  | nil => simp at h
  | cons e rest ih =>
    rw [List.map_cons]
    by_cases he : (e.1 == k) = true
    · rw [if_pos he]
      exact find?_keyed_cons_pos _ _ _ (by simp)
    · have hb : (e.1 == k) = false := Bool.eq_false_iff.mpr he
      rw [if_neg he, find?_keyed_cons_neg _ _ _ hb]
      rw [List.any_cons, hb, Bool.false_or] at h
      exact ih h

theorem find_append_of_none (ps : List (String × Peer)) (k : String) (v : Peer)
    (h : ps.any (fun e => e.1 == k) = false) :
    (ps ++ [(k, v)]).find? (fun e => e.1 == k) = some (k, v) := by
  induction ps with
  | nil => simp
  | cons e rest ih =>
    rw [List.any_cons, Bool.or_eq_false_iff] at h
    rw [List.cons_append, find?_keyed_cons_neg _ _ _ h.1]
    exact ih h.2

/-- `peers.get(k)` after `peers.set(k, v)` yields `v`. -/
theorem lookupPeer_setPeer (ps : List (String × Peer)) (k : String) (v : Peer) :
    lookupPeer (setPeer ps k v) k = some v := by
  unfold setPeer lookupPeer
  by_cases h : ps.any (fun e => e.1 == k) = true
  · rw [if_pos h, find_replace_of_any ps k v h]
    rfl
  · have hf : ps.any (fun e => e.1 == k) = false := Bool.eq_false_iff.mpr h
    rw [if_neg h, find_append_of_none ps k v hf]
    rfl

/-- `peers.set(k, v)` does not touch other keys. -/
theorem lookupPeer_setPeer_ne (ps : List (String × Peer)) (k kx : String) (v : Peer)
    (h : kx ≠ k) : lookupPeer (setPeer ps k v) kx = lookupPeer ps kx := by
  have hkkx : ((k : String) == kx) = false := by
    simp only [beq_eq_false_iff_ne, ne_eq]
    exact fun hh => h hh.symm
  unfold setPeer lookupPeer
  by_cases hany : ps.any (fun e => e.1 == k) = true
  · rw [if_pos hany]
    clear hany
    induction ps with
    | nil => rfl
    | cons e rest ih =>
      rw [List.map_cons]
      by_cases he : (e.1 == k) = true
      · have hex : (e.1 == kx) = false := by
          have hek : e.1 = k := by simpa using he
          rw [hek]
          exact hkkx
        rw [if_pos he, find?_keyed_cons_neg _ _ _ hkkx, find?_keyed_cons_neg _ _ _ hex]
        exact ih
      · rw [if_neg he]
        by_cases hx : (e.1 == kx) = true
        · rw [find?_keyed_cons_pos _ _ _ hx, find?_keyed_cons_pos _ _ _ hx]
        · have hxb : (e.1 == kx) = false := Bool.eq_false_iff.mpr hx
          rw [find?_keyed_cons_neg _ _ _ hxb, find?_keyed_cons_neg _ _ _ hxb]
          exact ih
  · rw [if_neg hany, List.find?_append]
    have hone : List.find? (fun e => e.1 == kx) [(k, v)] = none := by
      rw [find?_keyed_cons_neg _ _ _ hkkx]
      rfl
    rw [hone, Option.or_none]

/-- `peers.delete(k)` removes the key. -/
theorem lookupPeer_deletePeer (ps : List (String × Peer)) (k : String) :
    lookupPeer (deletePeer ps k) k = none := by
  unfold deletePeer lookupPeer
  induction ps with
  | nil => rfl
  | cons e rest ih =>
    rw [List.filter_cons]
    by_cases he : (e.1 == k) = true
    · rw [he]
      simp only [Bool.not_true, Bool.false_eq_true, if_false]
      exact ih
    · have hb : (e.1 == k) = false := Bool.eq_false_iff.mpr he
      rw [hb]
      show Option.map Prod.snd (List.find? _ (e :: _)) = none
      rw [find?_keyed_cons_neg _ _ _ hb]
      exact ih

/-- In-place update of key `k` as seen through `peers.get(k)`. -/
theorem lookupPeer_updatePeer (ps : List (String × Peer)) (k : String) (f : Peer → Peer) :
    lookupPeer (updatePeer ps k f) k = (lookupPeer ps k).map f := by
  unfold updatePeer lookupPeer
  induction ps with
  | nil => rfl
  | cons e rest ih =>
    rw [List.map_cons]
    by_cases he : (e.1 == k) = true
    · rw [if_pos he, find?_keyed_cons_pos e _ _ he, find?_keyed_cons_pos (e.1, f e.2) _ _ he]
      rfl
    · have hb : (e.1 == k) = false := Bool.eq_false_iff.mpr he
      rw [if_neg he, find?_keyed_cons_neg _ _ _ hb, find?_keyed_cons_neg _ _ _ hb]
      exact ih

/-- Exactly the open connections other than the excluded one receive the
frame from `sendMessageRaw`. -/
theorem mem_sendMessageRawEvents (conns : Conns) (f : Frame) (ex : Option ConnId)
    (c : ConnId) :
    Event.write c f ∈ sendMessageRawEvents conns f ex ↔
      (connOpen conns c = true ∧ ex ≠ some c) := by
  unfold sendMessageRawEvents connOpen
  rw [List.mem_append]
  cases c with
  | client =>
    constructor
    · intro hmem
      rcases hmem with hL | hR
      · by_cases hcond : ex ≠ some ConnId.client ∧ conns.clientOpen = true
        · exact ⟨hcond.2, hcond.1⟩
        · rw [if_neg hcond] at hL
          exact absurd hL (List.not_mem_nil _)
      · exfalso
        rcases List.mem_filterMap.mp hR with ⟨e, _, he⟩
        by_cases h1 : ex = some (ConnId.ws e.1)
        · rw [if_pos h1] at he
          exact Option.noConfusion he
        · rw [if_neg h1] at he
          by_cases h2 : e.2 = true
          · rw [if_pos h2] at he
            have h3 := Option.some.inj he
            injection h3 with hc _
            exact ConnId.noConfusion hc
          · rw [if_neg (by simpa using h2 : ¬ e.2 = true)] at he
            exact Option.noConfusion he
    · intro hc
      left
      rw [if_pos (And.intro hc.2 hc.1)]
      exact List.mem_singleton.mpr rfl
  | ws n =>
    constructor
    · intro hmem
      rcases hmem with hL | hR
      · exfalso
        by_cases hcond : ex ≠ some ConnId.client ∧ conns.clientOpen = true
        · rw [if_pos hcond] at hL
          have h3 := List.mem_singleton.mp hL
          injection h3 with hc _
          exact ConnId.noConfusion hc
        · rw [if_neg hcond] at hL
          exact absurd hL (List.not_mem_nil _)
      · rcases List.mem_filterMap.mp hR with ⟨e, hmem2, he⟩
        by_cases h1 : ex = some (ConnId.ws e.1)
        · rw [if_pos h1] at he
          exact Option.noConfusion he
        · rw [if_neg h1] at he
          by_cases h2 : e.2 = true
          · rw [if_pos h2] at he
            have h3 := Option.some.inj he
            injection h3 with hc _
            injection hc with hn
            constructor
            · apply List.any_eq_true.mpr
              exact ⟨e, hmem2, by rw [hn, h2]; simp⟩
            · rw [← hn]
              exact h1
          · rw [if_neg h2] at he
            exact Option.noConfusion he
    · intro hc
      right
      rcases List.any_eq_true.mp hc.1 with ⟨e, hmem2, hpe⟩
      have hpe2 : (e.1 == n) = true ∧ e.2 = true := by simpa using hpe
      have hn : e.1 = n := by simpa using hpe2.1
      apply List.mem_filterMap.mpr
      refine ⟨e, hmem2, ?_⟩
      rw [hn, if_neg hc.2, if_pos hpe2.2]

/-- The bumped state after `peer.lastMessageId = message.id`. -/
def bumpLast (st : SyncState) (src : String) (i : Nat) : SyncState :=
  { st with peers := updatePeer st.peers src (fun p => { p with lastMessageId := i }) }

/-- Whether the entry named `n` is the controller in this state. -/
def isController (st : SyncState) (n : String) : Bool :=
  st.controller == some n

/-- With the source present in the Peer Table, `onMessage` takes the
known-peer path for either value of `loop`. -/
theorem onMessage_known (st : SyncState) (conns : Conns) (now : Nat) (fm : FullMessage)
    (raw : String) (origin : ConnId) (loop : Bool) (p : Peer)
    (h : lookupPeer st.peers fm.source = some p) :
    onMessage st conns now fm raw origin loop = onMessageCore st conns now fm raw origin := by
  cases loop
  · show onMessageFuel conns now fm raw origin (Nat.succ 0) st = _
    rw [onMessageFuel, h]
  · show onMessageFuel conns now fm raw origin 0 st = _
    rw [onMessageFuel, h]

/-- The `instanceInfo` branch always refreshes the sender's liveness and
priority; no other Peer Table entry changes. -/
theorem handleInstanceInfo_peers (st : SyncState) (conns : Conns) (now : Nat) (src : String)
    (peer : Peer) (prio : Int) (reply : Bool) :
    (handleInstanceInfo st conns now src peer prio reply).1.peers =
      updatePeer st.peers src (fun p =>
        { p with lastHeartbeat := some now, knownDead := false, priority := prio }) := by
  unfold handleInstanceInfo
  dsimp only
  split <;> split <;> (try split) <;> (try split) <;> rfl

/-- The `instanceInfo` branch leaves the controller unchanged, or elects self
(`assumeControl`), or elects the sender (`setController(peer)`). -/
theorem handleInstanceInfo_controller (st : SyncState) (conns : Conns) (now : Nat) (src : String)
    (peer : Peer) (prio : Int) (reply : Bool) :
    (handleInstanceInfo st conns now src peer prio reply).1.controller = st.controller ∨
    (handleInstanceInfo st conns now src peer prio reply).1.controller = some st.instanceName ∨
    (handleInstanceInfo st conns now src peer prio reply).1.controller = some peer.name := by
  unfold handleInstanceInfo
  dsimp only
  split <;> split <;> (try split) <;> (try split) <;>
    first
      | (left; rfl)
      | (right; left; rfl)
      | (right; right; rfl)

/-- The `controlSwitch` branch leaves the controller unchanged, or sets it to
any stored peer self does not out-rank — no liveness condition is checked. -/
theorem handleControlSwitch_controller (st : SyncState) (c : String) :
    (handleControlSwitch st c).1.controller = st.controller ∨
    (∃ q, lookupPeer st.peers c = some q ∧
      (handleControlSwitch st c).1.controller = some q.name ∧ ¬ myPriority st < q.priority) := by
  unfold handleControlSwitch
  split
  · left; rfl
  · rename_i q hq
    split
    · left; rfl
    · rename_i hrank
      right
      exact ⟨q, hq, rfl, hrank⟩

/-! ## Claim C1: the reconciliation classifier -/

def c1Self : Peer :=
  { name := "me", address := some "a0", lastHeartbeat := none, lastMessageId := 0,
    modules := none, knownDead := false, priority := 5000 }

def c1P1 : Peer :=
  { name := "p1", address := some "a1", lastHeartbeat := some 20000, lastMessageId := 1,
    modules := some [{ name := "beta", available := true, handling := true }],
    knownDead := false, priority := 100 }

/-- Self is controller; the local module `alpha` is not handled by self, and
the only live peer advertises handling of `beta` only (not `alpha`). -/
def c1State : SyncState :=
  { instanceName := "me", version := "1.0", env := "prod", userId := "u",
    peers := [("me", c1Self), ("p1", c1P1)], controller := some "me",
    localModules := [{ name := "alpha", available := true, handler := none }],
    currentMessageId := 1, knownConfigs := [] }

/-- Same state except the live peer advertises handling of nothing. -/
def c1StateB : SyncState :=
  { c1State with peers :=
      [("me", c1Self),
       ("p1", { c1P1 with modules := some [{ name := "beta", available := true, handling := false }] })] }

/-- Claim C1 (code bug): `checkModules` classifies the local module `alpha` as
handled — excluding it from assignment — because a live peer is handling *some*
module (`beta`), even though no peer's snapshot lists `alpha` with
`handling = true`; with the peer handling nothing, `alpha` is classified
unhandled, showing the classifier ignores the module name. -/
theorem c1_checkModules_ignores_module_name :
    unhandledModules c1State 20000 = [] ∧
    unhandledModules c1StateB 20000 = ["alpha"] := by
  decide

/-! ## Claim C2: hello identity gates -/

def c2P1 : Peer :=
  { name := "p1", address := some "a1", lastHeartbeat := none, lastMessageId := 0,
    modules := none, knownDead := false, priority := -1 }

def c2State : SyncState :=
  { instanceName := "me", version := "1.0", env := "prod", userId := "u",
    peers := [("p1", c2P1)], controller := none, localModules := [],
    currentMessageId := 1, knownConfigs := [] }

def c2Conns : Conns := { clientOpen := false, wsConns := [] }

def c2EnvHello : FullMessage :=
  { source := "p1", id := 0, msg := Message.hello "1.0" "dev" "u" }

def c2SelfHello : FullMessage :=
  { source := "me", id := 0, msg := Message.hello "9.9" "dev" "zzz" }

/-- Claim C2 (code bug): a hello whose `env` differs from ours (version and
userId equal) is accepted on both directions — the server flips `saidHello`
and replies with its own hello without checking any of the four gates (even a
hello with our own `source` and a different version is accepted), and the
client's `processHello` returns `gotHello = true` with no close because its
second gate re-checks `version` instead of `env`. -/
theorem c2_hello_gates_not_enforced :
    (serverOnMessage c2State c2Conns 0 false c2EnvHello "raw" 0).2.1 = true ∧
    (serverOnMessage c2State c2Conns 0 false c2EnvHello "raw" 0).2.2 =
      [Event.write (ConnId.ws 0)
        (Frame.enc { source := "me", id := 1, msg := Message.hello "1.0" "prod" "u" })] ∧
    (serverOnMessage c2State c2Conns 0 false c2SelfHello "raw" 0).2.1 = true ∧
    (processHello c2State "p1" "1.0" "dev" "u" c2P1).2.2.1 = true ∧
    (processHello c2State "p1" "1.0" "dev" "u" c2P1).2.2.2 = [] := by
  decide

/-! ## Claim C6: the moduleInfo branch -/

def c6P1 : Peer :=
  { name := "p1", address := some "a1", lastHeartbeat := some 20000, lastMessageId := 0,
    modules := none, knownDead := false, priority := 100 }

def c6State : SyncState :=
  { instanceName := "me", version := "1.0", env := "prod", userId := "u",
    peers := [("p1", c6P1)], controller := none,
    localModules :=
      [{ name := "alpha", available := true, handler := some "p1" },
       { name := "beta", available := true, handler := some "p1" }],
    currentMessageId := 1, knownConfigs := [] }

def c6Conns : Conns := { clientOpen := false, wsConns := [] }

def c6Msg : FullMessage :=
  { source := "p1", id := 1,
    msg := Message.moduleInfo
      [{ name := "alpha", available := true, handling := false },
       { name := "beta", available := true, handling := false }] }

/-- Claim C6 (code bug): on a `moduleInfo` from p1 whose first descriptor
claims `handling = false`, the handler of `alpha` is cleared but the loop then
returns from `onMessage` entirely (`return` where the adjacent branch uses
`continue`), so the second `handling = false` descriptor is never processed
(`beta`'s handler still points at p1) and the received list is never stored as
p1's snapshot (`modules` stays absent). -/
theorem c6_moduleInfo_early_return :
    (onMessage c6State c6Conns 20000 c6Msg "raw" ConnId.client false).1.localModules =
      [{ name := "alpha", available := true, handler := none },
       { name := "beta", available := true, handler := some "p1" }] ∧
    (lookupPeer (onMessage c6State c6Conns 20000 c6Msg "raw" ConnId.client false).1.peers
        "p1").map (fun p => p.modules) = some none := by
  decide

/-! ## Claim C7: expireConfigCache routing -/

def c7Storage : ConfigStorageState :=
  { users := [("u1", true)], guilds := [("g1", true)], globalCached := true }

/-- Claim C7 (code bug): `expireCache` flushes the correct bucket only for
scope `user`; scope `guild` (the `else` branch) flushes the *global* bucket
and leaves the guild bucket `g1` cached, while scope `global` flushes the
*guilds* bucket keyed by `id` and leaves the global bucket cached. -/
theorem c7_expireCache_swaps_guild_and_global :
    ConfigStorageState.expireCache c7Storage ConfigValueScope.guild "g1" =
      { users := [("u1", true)], guilds := [("g1", true)], globalCached := false } ∧
    ConfigStorageState.expireCache c7Storage ConfigValueScope.global "g1" =
      { users := [("u1", true)], guilds := [("g1", false)], globalCached := true } ∧
    ConfigStorageState.expireCache c7Storage ConfigValueScope.user "u1" =
      { users := [("u1", false)], guilds := [("g1", true)], globalCached := true } := by
  decide

/-! ## Claim C9: message ids -/

def c9State : SyncState :=
  { instanceName := "me", version := "1.0", env := "prod", userId := "u",
    peers := [], controller := none, localModules := [],
    currentMessageId := initialMessageId, knownConfigs := [] }

def c9Conns : Conns := { clientOpen := true, wsConns := [(0, true)] }

/-- Claim C9 counterexample: on a fresh node (counter at its initial value 1)
the server's hello reply is stamped by `messageToData` and carries id 1, not
id 0 as the claim states for every hello frame. -/
theorem c9_server_hello_reply_id_not_zero :
    (serverOnMessage c9State c9Conns 0 false
        { source := "p1", id := 0, msg := Message.hello "1.0" "prod" "u" } "raw" 0).2.2 =
      [Event.write (ConnId.ws 0)
        (Frame.enc { source := "me", id := 1, msg := Message.hello "1.0" "prod" "u" })] ∧
    (1 : Nat) ≠ 0 := by
  decide

/-- Claim C9 (amended): outbound messages draw their id from the per-node
counter, which starts at 1 and increments by one per stamped message; the
*client's* hello is built by hand with id 0, but the *server's* hello reply
goes through `messageToData` like any other outbound message and carries the
next counter value. -/
theorem c9_message_ids (st : SyncState) (conns : Conns) (m : Message)
    (src : String) (hid : Nat) (ver env uid raw : String) (wsId now : Nat) :
    initialMessageId = 1 ∧
    (messageToData st m).2.id = st.currentMessageId ∧
    (messageToData st m).1.currentMessageId = st.currentMessageId + 1 ∧
    clientSendHello st true =
      [Event.write ConnId.client
        (Frame.enc { source := st.instanceName, id := 0,
                     msg := Message.hello st.version st.env st.userId })] ∧
    serverOnMessage st conns now false { source := src, id := hid, msg := Message.hello ver env uid } raw wsId =
      ({ st with currentMessageId := st.currentMessageId + 1 }, true,
       [Event.write (ConnId.ws wsId)
         (Frame.enc { source := st.instanceName, id := st.currentMessageId,
                      msg := Message.hello st.version st.env st.userId })]) := by
  exact ⟨rfl, rfl, rfl, rfl, rfl⟩


/-! ## Claim C3: per-source dedup -/

/-- Claim C3: for a known peer whose advertised source is not self, a non-hello
message is processed and relayed exactly when its id is strictly greater than
the stored `lastMessageId`; otherwise `onMessage` returns the state unchanged
with no effects; and the dispatch to the component-specific handler happens
only on the bumped state, i.e. only for messages that passed the gate. -/
theorem c3_dedup_gate (st : SyncState) (conns : Conns) (now : Nat)
    (fm : FullMessage) (raw : String) (origin : ConnId) (peer : Peer)
    (hpeer : lookupPeer st.peers fm.source = some peer)
    (hself : fm.source ≠ st.instanceName)
    (_hnothello : ∀ v e u, fm.msg ≠ Message.hello v e u) :
    (fm.id ≤ peer.lastMessageId →
      onMessage st conns now fm raw origin false = (st, [])) ∧
    (peer.lastMessageId < fm.id →
      onMessage st conns now fm raw origin false =
        ((handleKnownMessage (bumpLast st fm.source fm.id) conns now fm).1,
         sendMessageRawEvents conns (Frame.raw raw) (some origin) ++
           (handleKnownMessage (bumpLast st fm.source fm.id) conns now fm).2) ∧
      lookupPeer (bumpLast st fm.source fm.id).peers fm.source =
        some { peer with lastMessageId := fm.id }) := by
  have hb : (fm.source == st.instanceName) = false := by simpa using hself
  have hcore := onMessage_known st conns now fm raw origin false peer hpeer
  constructor
  · intro hle
    rw [hcore]
    unfold onMessageCore
    simp only [hpeer, hb, Bool.false_eq_true, if_false]
    rw [if_pos (show peer.lastMessageId ≥ fm.id from hle)]
  · intro hlt
    constructor
    · rw [hcore]
      unfold onMessageCore
      simp only [hpeer, hb, Bool.false_eq_true, if_false]
      rw [if_neg (show ¬ peer.lastMessageId ≥ fm.id by omega)]
      rfl
    · show lookupPeer (updatePeer st.peers fm.source
        (fun p => { p with lastMessageId := fm.id })) fm.source = _
      rw [lookupPeer_updatePeer, hpeer]
      rfl

def c3WSelf : Peer :=
  { name := "me", address := some "a0", lastHeartbeat := none, lastMessageId := 0,
    modules := none, knownDead := false, priority := 5000 }

def c3WPeer : Peer :=
  { name := "p3", address := some "a3", lastHeartbeat := some 90, lastMessageId := 5,
    modules := none, knownDead := false, priority := 100 }

def c3WState : SyncState :=
  { instanceName := "me", version := "1.0", env := "prod", userId := "u",
    peers := [("me", c3WSelf), ("p3", c3WPeer)], controller := none,
    localModules := [], currentMessageId := 1, knownConfigs := [] }

def c3WConns : Conns := { clientOpen := true, wsConns := [] }

def c3WMsg : FullMessage := { source := "p3", id := 3, msg := Message.heartbeat 0 }

/-- Witness for C3 at a concrete duplicate (`id 3 ≤ stored 5`). -/
theorem c3_dedup_gate_witness :
    lookupPeer c3WState.peers c3WMsg.source = some c3WPeer ∧
    ((c3WMsg.id ≤ c3WPeer.lastMessageId →
       onMessage c3WState c3WConns 100 c3WMsg "raw" ConnId.client false = (c3WState, [])) ∧
     (c3WPeer.lastMessageId < c3WMsg.id →
       onMessage c3WState c3WConns 100 c3WMsg "raw" ConnId.client false =
         ((handleKnownMessage (bumpLast c3WState c3WMsg.source c3WMsg.id) c3WConns 100 c3WMsg).1,
          sendMessageRawEvents c3WConns (Frame.raw "raw") (some ConnId.client) ++
            (handleKnownMessage (bumpLast c3WState c3WMsg.source c3WMsg.id) c3WConns 100 c3WMsg).2) ∧
       lookupPeer (bumpLast c3WState c3WMsg.source c3WMsg.id).peers c3WMsg.source =
         some { c3WPeer with lastMessageId := c3WMsg.id })) :=
  ⟨by decide,
   c3_dedup_gate c3WState c3WConns 100 c3WMsg "raw" ConnId.client c3WPeer (by decide) (by decide)
     (fun v e u h => Message.noConfusion h)⟩

/-! ## Claim C4: the controller field -/

def c4Self : Peer :=
  { name := "me", address := some "a0", lastHeartbeat := none, lastMessageId := 0,
    modules := none, knownDead := false, priority := 5000 }

def c4P1 : Peer :=
  { name := "p1", address := some "a1", lastHeartbeat := some 95, lastMessageId := 0,
    modules := none, knownDead := false, priority := 100 }

def c4X : Peer :=
  { name := "x", address := none, lastHeartbeat := none, lastMessageId := 0,
    modules := none, knownDead := false, priority := -1 }

def c4State : SyncState :=
  { instanceName := "me", version := "1.0", env := "prod", userId := "u",
    peers := [("me", c4Self), ("p1", c4P1), ("x", c4X)], controller := some "me",
    localModules := [], currentMessageId := 1, knownConfigs := [] }

def c4Conns : Conns := { clientOpen := false, wsConns := [] }

def c4Msg : FullMessage := { source := "p1", id := 1, msg := Message.controlSwitch "x" }

/-- Claim C4 counterexample: starting from a state whose controller is self, a
`controlSwitch("x")` received from the live peer p1 installs `x` as controller
even though `x` is neither self nor alive (it was loaded without a heartbeat,
so its derived alive predicate is false): the receipt operation does not
preserve the claimed invariant. -/
theorem c4_controlSwitch_dead_controller :
    c4State.controller = some c4State.instanceName ∧
    (onMessage c4State c4Conns 100 c4Msg "raw" ConnId.client false).1.controller = some "x" ∧
    "x" ≠ c4State.instanceName ∧
    (lookupPeer (onMessage c4State c4Conns 100 c4Msg "raw" ConnId.client false).1.peers "x").map
      (fun p => p.alive 100) = some false := by
  decide

/-- Claim C4 (amended): the controller is a single field, so at most one entry
is the controller at any instant; `assumeControl` sets it to self, and the
`instanceInfo` election sets it only to self or to the (just-refreshed, hence
alive) sender; but the `controlSwitch` receipt checks only table membership
and priority rank, so it can install any stored peer that self does not
out-rank, alive or not. -/
theorem c4_controller_ops (st : SyncState) (conns : Conns) (now : Nat)
    (src c : String) (peer : Peer) (prio : Int) (reply : Bool)
    (hpeer : lookupPeer st.peers src = some peer) (hname : peer.name = src) :
    (∀ a b, isController st a = true → isController st b = true → a = b) ∧
    (assumeControl st conns).1.controller = some st.instanceName ∧
    ((handleInstanceInfo st conns now src peer prio reply).1.controller = st.controller ∨
     (handleInstanceInfo st conns now src peer prio reply).1.controller = some st.instanceName ∨
     ((handleInstanceInfo st conns now src peer prio reply).1.controller = some src ∧
      (lookupPeer (handleInstanceInfo st conns now src peer prio reply).1.peers src).map
        (fun p => p.alive now) = some true)) ∧
    ((handleControlSwitch st c).1.controller = st.controller ∨
     (∃ q, lookupPeer st.peers c = some q ∧
       (handleControlSwitch st c).1.controller = some q.name ∧ ¬ myPriority st < q.priority)) := by
  refine ⟨?_, rfl, ?_, handleControlSwitch_controller st c⟩
  · intro a b ha hb
    have ha2 : st.controller = some a := by simpa [isController] using ha
    have hb2 : st.controller = some b := by simpa [isController] using hb
    exact Option.some_inj.mp (ha2.symm.trans hb2)
  · rcases handleInstanceInfo_controller st conns now src peer prio reply with h | h | h
    · exact Or.inl h
    · exact Or.inr (Or.inl h)
    · refine Or.inr (Or.inr ⟨hname ▸ h, ?_⟩)
      rw [handleInstanceInfo_peers, lookupPeer_updatePeer, hpeer]
      have hlt : now < now + 10000 + 2000 := by omega
      simp [Peer.alive, P2P_HEARTBEAT_TIME, P2P_DEAD_TIME, hlt]

def c4WSelf : Peer :=
  { name := "me", address := some "a0", lastHeartbeat := none, lastMessageId := 0,
    modules := none, knownDead := false, priority := 5000 }

def c4WP1 : Peer :=
  { name := "p1", address := some "a1", lastHeartbeat := some 95, lastMessageId := 0,
    modules := none, knownDead := false, priority := 100 }

def c4WState : SyncState :=
  { instanceName := "me", version := "1.0", env := "prod", userId := "u",
    peers := [("me", c4WSelf), ("p1", c4WP1)], controller := some "me",
    localModules := [], currentMessageId := 1, knownConfigs := [] }

def c4WConns : Conns := { clientOpen := false, wsConns := [] }

/-- Witness for the amended C4 at a concrete state. -/
theorem c4_controller_ops_witness :
    lookupPeer c4WState.peers "p1" = some c4WP1 ∧
    ((∀ a b, isController c4WState a = true → isController c4WState b = true → a = b) ∧
     (assumeControl c4WState c4WConns).1.controller = some c4WState.instanceName ∧
     ((handleInstanceInfo c4WState c4WConns 100 "p1" c4WP1 777 false).1.controller = c4WState.controller ∨
      (handleInstanceInfo c4WState c4WConns 100 "p1" c4WP1 777 false).1.controller = some c4WState.instanceName ∨
      ((handleInstanceInfo c4WState c4WConns 100 "p1" c4WP1 777 false).1.controller = some "p1" ∧
       (lookupPeer (handleInstanceInfo c4WState c4WConns 100 "p1" c4WP1 777 false).1.peers "p1").map
         (fun p => p.alive 100) = some true)) ∧
     ((handleControlSwitch c4WState "p1").1.controller = c4WState.controller ∨
      (∃ q, lookupPeer c4WState.peers "p1" = some q ∧
        (handleControlSwitch c4WState "p1").1.controller = some q.name ∧
        ¬ myPriority c4WState < q.priority))) :=
  ⟨by decide,
   c4_controller_ops c4WState c4WConns 100 "p1" "p1" c4WP1 777 false (by decide) (by decide)⟩


/-! ## Claim C5: gossip relay -/

/-- Claim C5: a known-peer non-hello message that passes dedup is relayed —
the raw received bytes are written to exactly the open connections other than
the one it arrived on (the outbound client socket and every open inbound
connection) — and those relay writes precede all effects of the
component-specific handler, which runs on the bumped state afterwards. -/
theorem c5_relay_before_dispatch (st : SyncState) (conns : Conns) (now : Nat)
    (fm : FullMessage) (raw : String) (origin : ConnId) (peer : Peer) (c : ConnId)
    (hpeer : lookupPeer st.peers fm.source = some peer)
    (hself : fm.source ≠ st.instanceName)
    (hid : peer.lastMessageId < fm.id)
    (_hnothello : ∀ v e u, fm.msg ≠ Message.hello v e u) :
    onMessage st conns now fm raw origin false =
      ((handleKnownMessage (bumpLast st fm.source fm.id) conns now fm).1,
       sendMessageRawEvents conns (Frame.raw raw) (some origin) ++
         (handleKnownMessage (bumpLast st fm.source fm.id) conns now fm).2) ∧
    (Event.write c (Frame.raw raw) ∈ sendMessageRawEvents conns (Frame.raw raw) (some origin) ↔
      (connOpen conns c = true ∧ c ≠ origin)) := by
  constructor
  · rw [onMessage_known st conns now fm raw origin false peer hpeer]
    unfold onMessageCore
    simp only [hpeer, (by simpa using hself : (fm.source == st.instanceName) = false),
      Bool.false_eq_true, if_false]
    rw [if_neg (show ¬ peer.lastMessageId ≥ fm.id by omega)]
    rfl
  · rw [mem_sendMessageRawEvents]
    constructor
    · rintro ⟨h1, h2⟩
      exact ⟨h1, fun hx => h2 (by rw [hx])⟩
    · rintro ⟨h1, h2⟩
      refine ⟨h1, fun hx => h2 ?_⟩
      exact (Option.some.inj hx).symm

def c5WSelf : Peer :=
  { name := "me", address := some "a0", lastHeartbeat := none, lastMessageId := 0,
    modules := none, knownDead := false, priority := 5000 }

def c5WPeer : Peer :=
  { name := "p5", address := some "a5", lastHeartbeat := some 90, lastMessageId := 0,
    modules := none, knownDead := false, priority := 100 }

def c5WState : SyncState :=
  { instanceName := "me", version := "1.0", env := "prod", userId := "u",
    peers := [("me", c5WSelf), ("p5", c5WPeer)], controller := none,
    localModules := [], currentMessageId := 1, knownConfigs := [] }

def c5WConns : Conns := { clientOpen := true, wsConns := [(0, true), (1, false)] }

def c5WMsg : FullMessage := { source := "p5", id := 1, msg := Message.heartbeat 0 }

/-- Witness for C5: a heartbeat arriving on inbound connection 0 while the
client socket is open and inbound connection 1 is closed. -/
theorem c5_relay_before_dispatch_witness :
    lookupPeer c5WState.peers c5WMsg.source = some c5WPeer ∧
    (onMessage c5WState c5WConns 100 c5WMsg "raw" (ConnId.ws 0) false =
      ((handleKnownMessage (bumpLast c5WState c5WMsg.source c5WMsg.id) c5WConns 100 c5WMsg).1,
       sendMessageRawEvents c5WConns (Frame.raw "raw") (some (ConnId.ws 0)) ++
         (handleKnownMessage (bumpLast c5WState c5WMsg.source c5WMsg.id) c5WConns 100 c5WMsg).2) ∧
     (Event.write ConnId.client (Frame.raw "raw") ∈
        sendMessageRawEvents c5WConns (Frame.raw "raw") (some (ConnId.ws 0)) ↔
      (connOpen c5WConns ConnId.client = true ∧ ConnId.client ≠ ConnId.ws 0))) :=
  ⟨by decide,
   c5_relay_before_dispatch c5WState c5WConns 100 c5WMsg "raw" (ConnId.ws 0) c5WPeer
     ConnId.client (by decide) (by decide) (by decide)
     (fun v e u h => Message.noConfusion h)⟩

/-! ## Claim C8: rename at hello -/

def c8Self : Peer :=
  { name := "me", address := some "a0", lastHeartbeat := none, lastMessageId := 0,
    modules := none, knownDead := false, priority := 5000 }

def c8Alpha : Peer :=
  { name := "alpha", address := some "10.0.0.5:4000", lastHeartbeat := none, lastMessageId := 0,
    modules := none, knownDead := false, priority := -1 }

def c8State : SyncState :=
  { instanceName := "me", version := "1.0", env := "prod", userId := "u",
    peers := [("me", c8Self), ("alpha", c8Alpha)], controller := none,
    localModules := [], currentMessageId := 1, knownConfigs := [] }

/-- Claim C8 counterexample: the peer cached as "alpha" announces
source "bravo" in a hello that passes every gate; the entry is rekeyed (the
old key is gone, the object is stored under "bravo") but the handler emits no
`saveCache` event at all — the Peer Address Cache file is not rewritten. -/
theorem c8_rename_without_cache_write :
    (clientHandleHello c8State c8Alpha "bravo" "1.0" "prod" "u").2.2.2 = [] ∧
    lookupPeer (clientHandleHello c8State c8Alpha "bravo" "1.0" "prod" "u").1.peers "bravo" =
      some { c8Alpha with name := "bravo" } ∧
    lookupPeer (clientHandleHello c8State c8Alpha "bravo" "1.0" "prod" "u").1.peers "alpha" =
      none := by
  decide

/-- Claim C8 (amended): a hello whose source differs from the stored name
rekeys the peer entry in place (old key removed, re-inserted under the
advertised name), but the Peer Address Cache is rewritten only when the stored
name starts with "unknown-peer" — and that rewrite happens before the rename
of the `name` field, so the file records the peer under its old name; for any
other stored name no cache write occurs. -/
theorem c8_rename_cache_behavior (st : SyncState) (peer : Peer) (src env : String)
    (hnotself : src ≠ st.instanceName) (hmismatch : peer.name ≠ src) :
    (peer.name.startsWith "unknown-peer" = false →
      clientHandleHello st peer src st.version env st.userId =
        ({ st with peers := setPeer (deletePeer st.peers peer.name) src { peer with name := src } },
         { peer with name := src }, true, []) ∧
      lookupPeer (setPeer (deletePeer st.peers peer.name) src { peer with name := src }) src =
        some { peer with name := src } ∧
      lookupPeer (setPeer (deletePeer st.peers peer.name) src { peer with name := src })
        peer.name = none) ∧
    (peer.name.startsWith "unknown-peer" = true →
      clientHandleHello st peer src st.version env st.userId =
        ({ st with peers := setPeer (deletePeer (setPeer (deletePeer st.peers peer.name) src peer) peer.name) src { peer with name := src } },
         { peer with name := src }, true,
         [Event.saveCache (cacheEntries (setPeer (deletePeer st.peers peer.name) src peer))])) := by
  have hsrcb : (src == st.instanceName) = false := by simpa using hnotself
  have hmm : (src != peer.name) = true := by simpa using fun hh => hmismatch hh.symm
  constructor
  · intro hstart
    refine ⟨?_, ?_, ?_⟩
    · unfold clientHandleHello
      rw [hstart]
      unfold processHello
      simp only [hsrcb, Bool.false_eq_true, if_false, bne_self_eq_false, hmm, if_true]
    · exact lookupPeer_setPeer _ _ _
    · rw [lookupPeer_setPeer_ne _ _ _ _ hmismatch, lookupPeer_deletePeer]
  · intro hstart
    unfold clientHandleHello renamePeerEff
    rw [hstart]
    unfold processHello
    simp only [hsrcb, Bool.false_eq_true, if_false, bne_self_eq_false, hmm, if_true]
    rw [List.append_nil]

def c8WSelf : Peer :=
  { name := "me", address := some "a0", lastHeartbeat := none, lastMessageId := 0,
    modules := none, knownDead := false, priority := 5000 }

def c8WUnknown : Peer :=
  { name := "unknown-peer-1", address := some "10.0.0.5:4000", lastHeartbeat := none,
    lastMessageId := 0, modules := none, knownDead := false, priority := -1 }

def c8WState : SyncState :=
  { instanceName := "me", version := "1.0", env := "prod", userId := "u",
    peers := [("me", c8WSelf), ("unknown-peer-1", c8WUnknown)], controller := none,
    localModules := [], currentMessageId := 1, knownConfigs := [] }

/-- Witness for the amended C8: the `unknown-peer-1` entry announcing
"bravo"; the single `saveCache` emitted records the old name. -/
theorem c8_rename_cache_behavior_witness :
    c8WUnknown.name ≠ "bravo" ∧
    ((c8WUnknown.name.startsWith "unknown-peer" = false →
       clientHandleHello c8WState c8WUnknown "bravo" c8WState.version "prod" c8WState.userId =
         ({ c8WState with peers := setPeer (deletePeer c8WState.peers c8WUnknown.name) "bravo" { c8WUnknown with name := "bravo" } },
          { c8WUnknown with name := "bravo" }, true, []) ∧
       lookupPeer (setPeer (deletePeer c8WState.peers c8WUnknown.name) "bravo" { c8WUnknown with name := "bravo" }) "bravo" =
         some { c8WUnknown with name := "bravo" } ∧
       lookupPeer (setPeer (deletePeer c8WState.peers c8WUnknown.name) "bravo" { c8WUnknown with name := "bravo" })
         c8WUnknown.name = none) ∧
     (c8WUnknown.name.startsWith "unknown-peer" = true →
       clientHandleHello c8WState c8WUnknown "bravo" c8WState.version "prod" c8WState.userId =
         ({ c8WState with peers := setPeer (deletePeer (setPeer (deletePeer c8WState.peers c8WUnknown.name) "bravo" c8WUnknown) c8WUnknown.name) "bravo" { c8WUnknown with name := "bravo" } },
          { c8WUnknown with name := "bravo" }, true,
          [Event.saveCache (cacheEntries (setPeer (deletePeer c8WState.peers c8WUnknown.name) "bravo" c8WUnknown))]))) :=
  ⟨by decide,
   c8_rename_cache_behavior c8WState c8WUnknown "bravo" "prod" (by decide) (by decide)⟩

/-! ## Claim C10: unknown sources -/

/-- Claim C10: a message whose source is not in the Peer Table produces no
state change and no effects unless it is an `instanceInfo`, in which case a
peer is created from its source and address, the Peer Address Cache is
rewritten (one `saveCache` of the updated table), and the message is then
re-processed through the known-peer path exactly once. -/
theorem c10_unknown_source (st : SyncState) (conns : Conns) (now : Nat) (fm : FullMessage)
    (raw : String) (origin : ConnId)
    (h : lookupPeer st.peers fm.source = none) :
    (onMessage st conns now fm raw origin false =
      match fm.msg with
      | Message.instanceInfo addr _ _ =>
        let r1 := createPeerEff st fm.source addr true
        let r2 := onMessage r1.1 conns now fm raw origin true
        (r2.1, r1.2 ++ r2.2)
      | _ => (st, [])) ∧
    (∀ addr prio reply, fm.msg = Message.instanceInfo addr prio reply →
      createPeerEff st fm.source addr true =
        ({ st with peers := setPeer st.peers fm.source (Peer.mk0 fm.source addr) },
         [Event.saveCache (cacheEntries (setPeer st.peers fm.source (Peer.mk0 fm.source addr)))]) ∧
      lookupPeer (setPeer st.peers fm.source (Peer.mk0 fm.source addr)) fm.source =
        some (Peer.mk0 fm.source addr) ∧
      onMessage { st with peers := setPeer st.peers fm.source (Peer.mk0 fm.source addr) }
          conns now fm raw origin true =
        onMessageCore { st with peers := setPeer st.peers fm.source (Peer.mk0 fm.source addr) }
          conns now fm raw origin) := by
  constructor
  · show onMessageFuel conns now fm raw origin (Nat.succ 0) st = _
    rw [onMessageFuel, h]
    rcases fm with ⟨src, mid, msg⟩
    cases msg <;> rfl
  · intro addr prio reply _hmsg
    refine ⟨rfl, lookupPeer_setPeer _ _ _, ?_⟩
    exact onMessage_known _ conns now fm raw origin true _ (lookupPeer_setPeer _ _ _)

def c10WSelf : Peer :=
  { name := "me", address := some "a0", lastHeartbeat := none, lastMessageId := 0,
    modules := none, knownDead := false, priority := 5000 }

def c10WState : SyncState :=
  { instanceName := "me", version := "1.0", env := "prod", userId := "u",
    peers := [("me", c10WSelf)], controller := none,
    localModules := [], currentMessageId := 1, knownConfigs := [] }

def c10WConns : Conns := { clientOpen := true, wsConns := [] }

def c10WMsg : FullMessage :=
  { source := "q", id := 7, msg := Message.instanceInfo (some "addr-q") 9999 true }

/-- Witness for C10: an `instanceInfo` from the unknown peer "q". -/
theorem c10_unknown_source_witness :
    lookupPeer c10WState.peers c10WMsg.source = none ∧
    ((onMessage c10WState c10WConns 100 c10WMsg "raw" (ConnId.ws 0) false =
       match c10WMsg.msg with
       | Message.instanceInfo addr _ _ =>
         let r1 := createPeerEff c10WState c10WMsg.source addr true
         let r2 := onMessage r1.1 c10WConns 100 c10WMsg "raw" (ConnId.ws 0) true
         (r2.1, r1.2 ++ r2.2)
       | _ => (c10WState, [])) ∧
     (∀ addr prio reply, c10WMsg.msg = Message.instanceInfo addr prio reply →
       createPeerEff c10WState c10WMsg.source addr true =
         ({ c10WState with peers := setPeer c10WState.peers c10WMsg.source (Peer.mk0 c10WMsg.source addr) },
          [Event.saveCache (cacheEntries (setPeer c10WState.peers c10WMsg.source (Peer.mk0 c10WMsg.source addr)))]) ∧
       lookupPeer (setPeer c10WState.peers c10WMsg.source (Peer.mk0 c10WMsg.source addr)) c10WMsg.source =
         some (Peer.mk0 c10WMsg.source addr) ∧
       onMessage { c10WState with peers := setPeer c10WState.peers c10WMsg.source (Peer.mk0 c10WMsg.source addr) }
           c10WConns 100 c10WMsg "raw" (ConnId.ws 0) true =
         onMessageCore { c10WState with peers := setPeer c10WState.peers c10WMsg.source (Peer.mk0 c10WMsg.source addr) }
           c10WConns 100 c10WMsg "raw" (ConnId.ws 0))) :=
  ⟨by decide,
   c10_unknown_source c10WState c10WConns 100 c10WMsg "raw" (ConnId.ws 0) (by decide)⟩

end OrangeBot
